import Mathlib

/-!
Verification of `cli_client/python/timesketch_cli_client/commands/explore.py`.

The module is embedded shallowly.  The pure helpers (`_create_empty_chip`,
`get_filter_chips`, `search`, `format_output`, `describe_query`, and the
query-filter construction inside `explore_group`) become Lean functions.
The side effects of one invocation of the `explore` command (the
`sketch.get_view` call, the `sketch.explore` call issued inside `search`,
and the `click.echo` writes) are recorded as an explicit list of `Effect`
values, in the order the Python code performs them.  External collaborators
that are not part of this repository (the sketch API client object and the
pandas / tabulate rendering primitives) are parameters of the embedding.
-/

/-- A Python value that can occur as a filter value in this module: a string
(from the `--time` and `--label` options) or a pair of strings (from the
`--time-range` option, which is declared with `nargs=2` and therefore yields
2-tuples).  Python is dynamically typed, so `get_filter_chips` receives a
list of such values and a chip dict can store either shape in its `value`
slot. -/
inductive PyVal where
  | str (s : String)
  | tuple (a b : String)
  deriving DecidableEq

/-- One filter chip: the dict produced by `_create_empty_chip` and mutated by
`get_filter_chips`.  The `type` slot starts out as Python `None`, modelled
with `Option String`.  Key insertion order in the Python dict is
`field`, `value`, `type`, `operator`; the fields are declared in that order
because `json.dumps` serializes dict keys in insertion order. -/
structure Chip where
  field : String
  value : PyVal
  type : Option String
  operator : String
  deriving DecidableEq

/-- The query filter dict built in `explore_group` (and stored in saved
views).  The Python key `from` is a Lean keyword and is rendered `from_`
here; the serialized JSON key remains `"from"`. -/
structure QueryFilter where
  from_ : Int
  terminate_after : Int
  size : Int
  indices : List String
  order : String
  chips : List Chip
  deriving DecidableEq

/-- A minimal model of the pandas DataFrame returned by `sketch.explore`:
an ordered list of column names plus rows of cells (one cell per column). -/
structure DataFrame where
  columns : List String
  rows : List (List String)
  deriving DecidableEq

/-- A saved view as returned by `sketch.get_view`: a stored query string and
query filter. -/
structure View where
  query_string : String
  query_filter : QueryFilter
  deriving DecidableEq

/-- The external sketch API client (an external collaborator; not code of
this repository).  `explore` takes the query string, the query filter and
the `return_fields` string and returns a DataFrame; `get_view` resolves a
view name to a saved view. -/
structure Sketch where
  explore : String → QueryFilter → String → DataFrame
  get_view : String → View

/-- The rendering primitives from the external pandas and tabulate
libraries, as used by `format_output`:
`to_string df show_headers` models `df.to_string(index=False, header=show_headers)`,
`to_csv df show_headers` models `df.to_csv(index=False, header=show_headers)`,
`tabulate_keys df` models `tabulate(df, headers='keys', tablefmt='psql', showindex=False)`,
`tabulate_plain df` models `tabulate(df, tablefmt='psql', showindex=False)`. -/
structure Renderers where
  to_string : DataFrame → Bool → String
  to_csv : DataFrame → Bool → String
  tabulate_keys : DataFrame → String
  tabulate_plain : DataFrame → String

/-- The ambient click context object (`ctx.obj`): the active sketch and the
configured default output format. -/
structure Ctx where
  sketch : Sketch
  output_format : String

/-- One observable effect of an `explore` command invocation. -/
inductive Effect where
  | get_view (view_name : String)
  | explore (query_string : String) (query_filter : QueryFilter) (return_fields : String)
  | echo (message : Option String) (nl : Bool)
  deriving DecidableEq

/-- Whether an effect is the external search call (`sketch.explore`). -/
def Effect.is_explore_call : Effect → Bool
  | Effect.explore _ _ _ => true
  | _ => false

/-- Translation of `_create_empty_chip`: the default chip dict
`\x7b'field': '', 'value': '', 'type': None, 'operator': 'must'\x7d`. -/
def _create_empty_chip : Chip :=
  { field := "", value := PyVal.str "", type := none, operator := "must" }

/-- Translation of `get_filter_chips(values, chip_type)`.  The Python
`for`-loop that appends one chip per input value is rendered as `List.map`.
In the `label` branch the membership test `label in ['star', 'comment']`
can only succeed for string values, and the remap is
`'__ts_\x7b\x7d'.format(label)`; in the `datetime_range` branch a plain string
is first expanded to the degenerate pair `(t, t)` by the
`isinstance(time_range, str)` check, and the value is
`'\x7b\x7d,\x7b\x7d'.format(time_range[0], time_range[1])`.  Any other
`chip_type` falls through and returns the initial empty `chips` list. -/
def get_filter_chips (values : List PyVal) (chip_type : String) : List Chip :=
  if chip_type = "label" then
    values.map (fun label =>
      let label := match label with
        | PyVal.str s =>
            if s = "star" ∨ s = "comment" then PyVal.str ("__ts_" ++ s) else PyVal.str s
        | other => other
      { _create_empty_chip with value := label, type := some "label" })
  else if chip_type = "datetime_range" then
    values.map (fun time_range =>
      let time_range := match time_range with
        | PyVal.str s => (s, s)
        | PyVal.tuple a b => (a, b)
      { _create_empty_chip with value := PyVal.str (time_range.1 ++ "," ++ time_range.2), type := some "datetime_range" })
  else []

/-- `list_has_pre needle hay` is true when `needle` is a prefix of `hay`. -/
def list_has_pre : List Char → List Char → Bool
  | [], _ => true
  | _ :: _, [] => false
  | a :: as₁, b :: bs => a == b && list_has_pre as₁ bs

/-- `list_has_sub needle hay` is true when `needle` occurs contiguously
inside `hay`. -/
def list_has_sub : List Char → List Char → Bool
  | needle, [] => needle.isEmpty
  | needle, b :: bs => list_has_pre needle (b :: bs) || list_has_sub needle bs

/-- Python's `needle in hay` for strings: substring containment.  This is
the semantics of the `'label' not in return_fields` test in `search`, since
`explore_group` passes `return_fields` through as the raw comma-separated
option string. -/
def py_str_in (needle hay : String) : Bool :=
  list_has_sub needle.toList hay.toList

/-- Model of `dataframe.drop(columns=cols)`: remove the named columns (and
the corresponding cell of every row).  The pandas call raises `KeyError`
when a named column is absent; every use in this module happens when the
`label` column is present in the raw service response, so the embedding is
total. -/
def DataFrame.drop (df : DataFrame) (cols : List String) : DataFrame :=
  { columns := df.columns.filter (fun c => !cols.contains c),
    rows := df.rows.map (fun row =>
      ((df.columns.zip row).filter (fun p => !cols.contains p.1)).map Prod.snd) }

/-- Translation of `search(sketch, query_string, query_filter,
return_fields)`: call the external `sketch.explore`, then drop the `label`
column when `'label' not in return_fields` (a Python substring test on the
comma-separated option string). -/
def search (sketch : Sketch) (query_string : String) (query_filter : QueryFilter)
    (return_fields : String) : DataFrame :=
  let dataframe := sketch.explore query_string query_filter return_fields
  if !py_str_in "label" return_fields then dataframe.drop ["label"] else dataframe

/-- Translation of `format_output(dataframe, output_format, show_headers)`:
`result` starts as `None` and is only assigned in the `text`, `csv` and
`tabular` branches, so any other format tag returns `None`. -/
def format_output (r : Renderers) (dataframe : DataFrame) (output_format : String)
    (show_headers : Bool) : Option String :=
  let result : Option String := none
  if output_format = "text" then some (r.to_string dataframe show_headers)
  else if output_format = "csv" then some (r.to_csv dataframe show_headers)
  else if output_format = "tabular" then
    (if show_headers then some (r.tabulate_keys dataframe)
     else some (r.tabulate_plain dataframe))
  else result

/-- Number of spaces used for one JSON indentation step times the depth. -/
def indent_spaces (n : Nat) : String :=
  String.mk (List.replicate n ' ')

/-- Hexadecimal digit, lower case, as produced by CPython's `json`. -/
def hex_digit (n : Nat) : Char :=
  if n < 10 then Char.ofNat (48 + n) else Char.ofNat (87 + n)

/-- A `\uXXXX` escape for a code unit below 2^16. -/
def json_u4 (n : Nat) : String :=
  "\\u" ++ String.mk [hex_digit (n / 4096 % 16), hex_digit (n / 256 % 16),
    hex_digit (n / 16 % 16), hex_digit (n % 16)]

/-- Escaping of one character as CPython's `json.dumps` does with its
default `ensure_ascii=True`: the two mandatory escapes, the short escapes
for the common control characters, `\uXXXX` for the remaining control and
all non-ASCII characters (with a surrogate pair above the basic
multilingual plane), and the character itself otherwise. -/
def json_escape_char (c : Char) : String :=
  let n := c.toNat
  if c = '"' then "\\\""
  else if c = '\\' then "\\\\"
  else if c = '\n' then "\\n"
  else if c = '\t' then "\\t"
  else if c = '\r' then "\\r"
  else if n = 8 then "\\b"
  else if n = 12 then "\\f"
  else if n < 32 ∨ n > 126 then
    if n ≤ 65535 then json_u4 n
    else json_u4 (55296 + (n - 65536) / 1024) ++ json_u4 (56320 + (n - 65536) % 1024)
  else String.singleton c

/-- A JSON string literal for `s`, per `json.dumps`. -/
def json_str (s : String) : String :=
  "\"" ++ String.join (s.toList.map json_escape_char) ++ "\""

/-- JSON serialization of a chip value at nesting depth `d` with
`indent=2`: a string serializes as a JSON string, a tuple as a two-element
JSON array. -/
def PyVal.json_dump (v : PyVal) (d : Nat) : String :=
  match v with
  | PyVal.str s => json_str s
  | PyVal.tuple a b =>
      "[\n" ++ indent_spaces (2 * (d + 1)) ++ json_str a ++ ",\n"
        ++ indent_spaces (2 * (d + 1)) ++ json_str b ++ "\n"
        ++ indent_spaces (2 * d) ++ "]"

/-- JSON serialization of one chip dict at nesting depth `d` with
`indent=2`, keys in dict insertion order. -/
def Chip.json_dump (c : Chip) (d : Nat) : String :=
  let i := indent_spaces (2 * (d + 1))
  "\x7b\n"
    ++ i ++ json_str "field" ++ ": " ++ json_str c.field ++ ",\n"
    ++ i ++ json_str "value" ++ ": " ++ c.value.json_dump (d + 1) ++ ",\n"
    ++ i ++ json_str "type" ++ ": "
      ++ (match c.type with | none => "null" | some t => json_str t) ++ ",\n"
    ++ i ++ json_str "operator" ++ ": " ++ json_str c.operator ++ "\n"
    ++ indent_spaces (2 * d) ++ "\x7d"

/-- JSON serialization of the chips list at nesting depth `d` with
`indent=2` (an empty list collapses to `[]`, as `json.dumps` does). -/
def chips_json_dump (cs : List Chip) (d : Nat) : String :=
  match cs with
  | [] => "[]"
  | _ =>
      "[\n"
        ++ String.intercalate ",\n"
            (cs.map (fun c => indent_spaces (2 * (d + 1)) ++ c.json_dump (d + 1)))
        ++ "\n" ++ indent_spaces (2 * d) ++ "]"

/-- JSON serialization of a list of strings at nesting depth `d` with
`indent=2`. -/
def str_list_json_dump (xs : List String) (d : Nat) : String :=
  match xs with
  | [] => "[]"
  | _ =>
      "[\n"
        ++ String.intercalate ",\n"
            (xs.map (fun s => indent_spaces (2 * (d + 1)) ++ json_str s))
        ++ "\n" ++ indent_spaces (2 * d) ++ "]"

/-- `json.dumps(query_filter, indent=2)` for the query filter dict, keys in
insertion order (`from`, `terminate_after`, `size`, `indices`, `order`,
`chips`), two-space indentation. -/
def QueryFilter.json_dump (f : QueryFilter) : String :=
  let i := indent_spaces 2
  "\x7b\n"
    ++ i ++ json_str "from" ++ ": " ++ toString f.from_ ++ ",\n"
    ++ i ++ json_str "terminate_after" ++ ": " ++ toString f.terminate_after ++ ",\n"
    ++ i ++ json_str "size" ++ ": " ++ toString f.size ++ ",\n"
    ++ i ++ json_str "indices" ++ ": " ++ str_list_json_dump f.indices 1 ++ ",\n"
    ++ i ++ json_str "order" ++ ": " ++ json_str f.order ++ ",\n"
    ++ i ++ json_str "chips" ++ ": " ++ chips_json_dump f.chips 1 ++ "\n"
    ++ "\x7d"

/-- Translation of `describe_query(query_string, query_filter)`: two
`click.echo` calls (default newline), printing
`'Query string: \x7b\x7d'.format(query_string)` and
`'Filter: \x7b\x7d'.format(json.dumps(query_filter, indent=2))`. -/
def describe_query (query_string : String) (query_filter : QueryFilter) : List Effect :=
  [Effect.echo (some ("Query string: " ++ query_string)) true,
   Effect.echo (some ("Filter: " ++ query_filter.json_dump)) true]

/-- Python truthiness of an optional string option (`if view:` /
`if output:`): `None` and the empty string are falsy. -/
def py_truthy : Option String → Bool
  | none => false
  | some s => !(s == "")

/-- The effective output format: `output_format = ctx.obj.output_format`
overridden by a truthy `--output` value. -/
def effective_output_format (ctx : Ctx) (output : Option String) : String :=
  match output with
  | some o => if o == "" then ctx.output_format else o
  | none => ctx.output_format

/-- The query-filter construction of `explore_group` when no saved view is
used: the fresh dict
`\x7b'from': 0, 'terminate_after': limit, 'size': limit, 'indices': ['_all'],
'order': order, 'chips': []\x7d`, followed by the three guarded
`query_filter['chips'].extend(...)` blocks for `--time-range`, `--time` and
`--label`, in that order. -/
def build_cli_filter (times : List String) (time_ranges : List (String × String))
    (labels : List String) (order : String) (limit : Int) : QueryFilter :=
  let query_filter : QueryFilter :=
    { from_ := 0, terminate_after := limit, size := limit,
      indices := ["_all"], order := order, chips := [] }
  let query_filter := if !time_ranges.isEmpty then
      { query_filter with chips := query_filter.chips ++
          get_filter_chips (time_ranges.map (fun p => PyVal.tuple p.1 p.2)) "datetime_range" }
    else query_filter
  let query_filter := if !times.isEmpty then
      { query_filter with chips := query_filter.chips ++
          get_filter_chips (times.map PyVal.str) "datetime_range" }
    else query_filter
  let query_filter := if !labels.isEmpty then
      { query_filter with chips := query_filter.chips ++
          get_filter_chips (labels.map PyVal.str) "label" }
    else query_filter
  query_filter

/-- Translation of the `explore_group` click command body, as the list of
effects it performs.  `query`, `times`, `time_ranges`, `labels`, `header`,
`output`, `return_fields`, `order`, `limit`, `view` and `describe` are the
CLI option values (`times`, `time_ranges` and `labels` are the repeatable
options; `output` and `view` default to `None`). -/
def explore_group (r : Renderers) (ctx : Ctx) (query : String) (times : List String)
    (time_ranges : List (String × String)) (labels : List String) (header : Bool)
    (output : Option String) (return_fields : String) (order : String) (limit : Int)
    (view : Option String) (describe : Bool) : List Effect :=
  let sketch := ctx.sketch
  let output_format := effective_output_format ctx output
  let new_line := output_format != "csv"
  if py_truthy view then
    let view_name := view.getD ""
    let v := sketch.get_view view_name
    let query := v.query_string
    let query_filter := v.query_filter
    if describe then
      Effect.get_view view_name :: describe_query query query_filter
    else
      let result := search sketch query query_filter return_fields
      [Effect.get_view view_name,
       Effect.explore query query_filter return_fields,
       Effect.echo (format_output r result output_format header) new_line]
  else
    let query_filter := build_cli_filter times time_ranges labels order limit
    if describe then
      describe_query query query_filter
    else
      let result := search sketch query query_filter return_fields
      [Effect.explore query query_filter return_fields,
       Effect.echo (format_output r result output_format header) new_line]

/-- The query string the command resolves to: the saved view's stored query
when a truthy view name is given, the `--query` value otherwise. -/
def resolved_query (sketch : Sketch) (query : String) (view : Option String) : String :=
  if py_truthy view then (sketch.get_view (view.getD "")).query_string else query

/-- The query filter the command resolves to: the saved view's stored
filter when a truthy view name is given, the CLI-built filter otherwise. -/
def resolved_filter (sketch : Sketch) (times : List String)
    (time_ranges : List (String × String)) (labels : List String) (order : String)
    (limit : Int) (view : Option String) : QueryFilter :=
  if py_truthy view then (sketch.get_view (view.getD "")).query_filter
  else build_cli_filter times time_ranges labels order limit

/-- A concrete raw service response used to instantiate theorems: the
service-injected `label` column is present, alongside a user field whose
name contains `label` as a substring. -/
def demoDF : DataFrame :=
  { columns := ["message", "mylabel", "label"],
    rows := [["a", "b", "c"], ["d", "e", "f"]] }

/-- A concrete saved view used to instantiate theorems. -/
def demoView : View :=
  { query_string := "view-query",
    query_filter :=
      { from_ := 0, terminate_after := 10, size := 10,
        indices := ["_all"], order := "desc", chips := [] } }

/-- A concrete sketch client used to instantiate theorems: `explore` always
returns `demoDF` and `get_view` always returns `demoView`. -/
def demoSketch : Sketch :=
  { explore := fun _ _ _ => demoDF, get_view := fun _ => demoView }

/-- A concrete ambient context used to instantiate theorems. -/
def demoCtx : Ctx :=
  { sketch := demoSketch, output_format := "text" }

/-- Splitting a character list on commas, with the semantics of Python's
`str.split(',')` (the empty string yields one empty field). -/
def split_fields : List Char → List (List Char)
  | [] => [[]]
  | c :: cs =>
      if c = ',' then [] :: split_fields cs
      else
        match split_fields cs with
        | [] => [[c]]
        | g :: gs => (c :: g) :: gs

/-- The list of field names denoted by the comma-separated
`--return-fields` option string: the reading under which the docstring of
`search` ("List of fields to return in the server response") and its
comment ("Remove if it is not in the list of requested fields") describe
the parameter. -/
def requested_fields (return_fields : String) : List String :=
  (split_fields return_fields.toList).map (fun g => String.mk g)

/-- A trivial concrete rendering backend used to instantiate theorems. -/
def demoRenderers : Renderers :=
  { to_string := fun _ _ => "rendered-text",
    to_csv := fun _ _ => "rendered-csv",
    tabulate_keys := fun _ => "rendered-table",
    tabulate_plain := fun _ => "rendered-table" }

/-- Helper: the `label` branch of `get_filter_chips` over a list of string
values, written as one chip per value with the reserved labels remapped. -/
theorem label_chips_map (values : List String) :
    get_filter_chips (values.map PyVal.str) "label" =
      values.map (fun v =>
        { field := "",
          value := PyVal.str
            (if v = "star" then "__ts_star" else if v = "comment" then "__ts_comment" else v),
          type := some "label", operator := "must" }) := by
  unfold get_filter_chips
  rw [if_pos rfl, List.map_map]
  congr 1
  funext v
  by_cases h1 : v = "star"
  · subst h1; decide
  · by_cases h2 : v = "comment"
    · subst h2; decide
    · simp [h1, h2, _create_empty_chip]

/-- Helper: the `datetime_range` branch of `get_filter_chips`, written as
one chip per value with the serialized range as its value. -/
theorem datetime_chips_map (values : List PyVal) :
    get_filter_chips values "datetime_range" =
      values.map (fun v =>
        { field := "",
          value := PyVal.str
            (match v with
             | PyVal.str t => t ++ "," ++ t
             | PyVal.tuple a b => a ++ "," ++ b),
          type := some "datetime_range", operator := "must" }) := by
  unfold get_filter_chips
  rw [if_neg (by decide), if_pos rfl]
  congr 1
  funext v
  cases v <;> rfl

/-- Helper: `get_filter_chips` of an empty value list is empty for every
chip type. -/
theorem get_filter_chips_nil (chip_type : String) : get_filter_chips [] chip_type = [] := by
  unfold get_filter_chips
  split
  · rfl
  · split <;> rfl

/-- Helper: the guarded chip-extension chain of `explore_group` equals the
unconditional concatenation of the three chip groups. -/
theorem build_cli_filter_eq (times : List String) (time_ranges : List (String × String))
    (labels : List String) (order : String) (limit : Int) :
    build_cli_filter times time_ranges labels order limit =
      { from_ := 0, terminate_after := limit, size := limit, indices := ["_all"],
        order := order,
        chips :=
          get_filter_chips (time_ranges.map (fun p => PyVal.tuple p.1 p.2)) "datetime_range" ++
          get_filter_chips (times.map PyVal.str) "datetime_range" ++
          get_filter_chips (labels.map PyVal.str) "label" } := by
  rcases time_ranges with _ | ⟨p, ps⟩ <;> rcases times with _ | ⟨t, ts⟩ <;>
    rcases labels with _ | ⟨l, ls⟩ <;>
    simp [build_cli_filter, get_filter_chips_nil]

/-- C2: invoked with chip type `label`, the filter-chip builder produces
exactly one chip per input value, each with field `''`, operator `must`,
type `label`, and value equal to the input, except that `star` and
`comment` are remapped to `__ts_star` and `__ts_comment` respectively. -/
theorem C2_label_chips (values : List String) :
    get_filter_chips (values.map PyVal.str) "label" =
      values.map (fun v =>
        { field := "",
          value := PyVal.str
            (if v = "star" then "__ts_star" else if v = "comment" then "__ts_comment" else v),
          type := some "label", operator := "must" }) :=
  label_chips_map values

/-- C3: invoked with chip type `datetime_range`, the filter-chip builder
produces one chip per input with field `''`, operator `must` and type
`datetime_range`; a single timestamp `t` yields the value `"t,t"` and an
explicit `(start, end)` pair yields the value `"start,end"`. -/
theorem C3_datetime_chips (values : List PyVal) :
    get_filter_chips values "datetime_range" =
      values.map (fun v =>
        { field := "",
          value := PyVal.str
            (match v with
             | PyVal.str t => t ++ "," ++ t
             | PyVal.tuple a b => a ++ "," ++ b),
          type := some "datetime_range", operator := "must" }) :=
  datetime_chips_map values

/-- C8: for every list of input values, the filter-chip builder invoked
with a chip-type tag other than `label` or `datetime_range` returns the
empty chip list; it never fails on an unknown chip type. -/
theorem C8_unknown_chip_type (values : List PyVal) (chip_type : String)
    (h1 : chip_type ≠ "label") (h2 : chip_type ≠ "datetime_range") :
    get_filter_chips values chip_type = [] := by
  unfold get_filter_chips
  rw [if_neg h1, if_neg h2]

/-- Witness for C8 at the concrete chip type `foo`. -/
theorem C8_unknown_chip_type_witness :
    ("foo" ≠ "label") ∧ ("foo" ≠ "datetime_range") ∧
      get_filter_chips [PyVal.str "x", PyVal.tuple "a" "b"] "foo" = [] :=
  ⟨by decide, by decide,
   C8_unknown_chip_type [PyVal.str "x", PyVal.tuple "a" "b"] "foo" (by decide) (by decide)⟩

/-- C9: when no saved view is supplied, the chips list of the constructed
query filter consists of the `--time-range` chips first, then the `--time`
chips, then the `--label` chips, each group preserving the order in which
the values were supplied on the command line. -/
theorem C9_chip_group_order (r : Renderers) (ctx : Ctx) (query : String)
    (times : List String) (time_ranges : List (String × String)) (labels : List String)
    (header : Bool) (output : Option String) (return_fields : String) (order : String)
    (limit : Int) :
    (build_cli_filter times time_ranges labels order limit).chips =
      time_ranges.map (fun p =>
        { field := "", value := PyVal.str (p.1 ++ "," ++ p.2),
          type := some "datetime_range", operator := "must" }) ++
      times.map (fun t =>
        { field := "", value := PyVal.str (t ++ "," ++ t),
          type := some "datetime_range", operator := "must" }) ++
      labels.map (fun l =>
        { field := "",
          value := PyVal.str
            (if l = "star" then "__ts_star" else if l = "comment" then "__ts_comment" else l),
          type := some "label", operator := "must" }) ∧
    explore_group r ctx query times time_ranges labels header output return_fields order
        limit none false =
      [Effect.explore query (build_cli_filter times time_ranges labels order limit) return_fields,
       Effect.echo
         (format_output r
           (search ctx.sketch query (build_cli_filter times time_ranges labels order limit)
             return_fields)
           (effective_output_format ctx output) header)
         (effective_output_format ctx output != "csv")] := by
  constructor
  · rw [build_cli_filter_eq, datetime_chips_map, datetime_chips_map, label_chips_map]
    simp only [List.map_map]
    rfl
  · rfl

/-- C1 (code bug): with `return_fields = "mylabel"` the field `label` is not
among the requested fields (splitting the option string on commas gives
`["mylabel"]`), yet the table returned by `search` still contains the
`label` column, because `'label' not in return_fields` is a substring test
on the raw option string.  For contrast, the default `return_fields = ""`
does drop the service-injected `label` column. -/
theorem C1_label_column_kept_bug :
    ((requested_fields "mylabel").contains "label" = false) ∧
    py_str_in "label" "mylabel" = true ∧
    (search demoSketch "*" (build_cli_filter [] [] [] "asc" 40) "mylabel").columns =
      ["message", "mylabel", "label"] ∧
    (search demoSketch "*" (build_cli_filter [] [] [] "asc" 40) "").columns =
      ["message", "mylabel"] := by
  refine ⟨by decide, by decide, rfl, rfl⟩

/-- C6: the output formatter returns a rendered string when the format tag
is one of `text`, `csv`, `tabular`, and returns `None` (no output rather
than an error) for any other format tag. -/
theorem C6_format_output_dispatch (r : Renderers) (dataframe : DataFrame)
    (output_format : String) (show_headers : Bool) :
    ((output_format = "text" ∨ output_format = "csv" ∨ output_format = "tabular") →
      ∃ s, format_output r dataframe output_format show_headers = some s) ∧
    (output_format ≠ "text" → output_format ≠ "csv" → output_format ≠ "tabular" →
      format_output r dataframe output_format show_headers = none) := by
  constructor
  · rintro (h | h | h) <;> subst h
    · exact ⟨_, rfl⟩
    · exact ⟨_, rfl⟩
    · cases show_headers
      · exact ⟨_, rfl⟩
      · exact ⟨_, rfl⟩
  · intro h1 h2 h3
    simp only [format_output, if_neg h1, if_neg h2, if_neg h3]

/-- Witness for C6 at the concrete formats `csv` (rendered) and `pdf`
(no output). -/
theorem C6_format_output_dispatch_witness :
    (∃ s, format_output demoRenderers demoDF "csv" false = some s) ∧
    format_output demoRenderers demoDF "pdf" false = none :=
  ⟨(C6_format_output_dispatch demoRenderers demoDF "csv" false).1 (Or.inr (Or.inl rfl)),
   (C6_format_output_dispatch demoRenderers demoDF "pdf" false).2
     (by decide) (by decide) (by decide)⟩

/-- C7: when no saved view is supplied, the query filter passed to the
search call has `from = 0`, `terminate_after` and `size` both equal to the
`--limit` value, `indices = ['_all']`, `order` equal to the `--order`
value, and a chips list that starts empty before the CLI filter flags are
applied (it consists exactly of the flag-derived chips). -/
theorem C7_fresh_filter_fields (r : Renderers) (ctx : Ctx) (query : String)
    (times : List String) (time_ranges : List (String × String)) (labels : List String)
    (header : Bool) (output : Option String) (return_fields : String) (order : String)
    (limit : Int) :
    explore_group r ctx query times time_ranges labels header output return_fields order
        limit none false =
      [Effect.explore query (build_cli_filter times time_ranges labels order limit)
        return_fields,
       Effect.echo
         (format_output r
           (search ctx.sketch query (build_cli_filter times time_ranges labels order limit)
             return_fields)
           (effective_output_format ctx output) header)
         (effective_output_format ctx output != "csv")] ∧
    (build_cli_filter times time_ranges labels order limit).from_ = 0 ∧
    (build_cli_filter times time_ranges labels order limit).terminate_after = limit ∧
    (build_cli_filter times time_ranges labels order limit).size = limit ∧
    (build_cli_filter times time_ranges labels order limit).indices = ["_all"] ∧
    (build_cli_filter times time_ranges labels order limit).order = order ∧
    (build_cli_filter times time_ranges labels order limit).chips =
      get_filter_chips (time_ranges.map (fun p => PyVal.tuple p.1 p.2)) "datetime_range" ++
      get_filter_chips (times.map PyVal.str) "datetime_range" ++
      get_filter_chips (labels.map PyVal.str) "label" := by
  refine ⟨rfl, ?_, ?_, ?_, ?_, ?_, ?_⟩ <;> rw [build_cli_filter_eq]

/-- C4: whenever the describe flag is set, the command performs no external
explore (search) call, and its output ends with exactly the two
`describe_query` prints: the resolved query string and the query filter
serialized as JSON with two-space indentation; this holds in both the
saved-view path and the ad-hoc path. -/
theorem C4_describe_early_exit (r : Renderers) (ctx : Ctx) (query : String)
    (times : List String) (time_ranges : List (String × String)) (labels : List String)
    (header : Bool) (output : Option String) (return_fields : String) (order : String)
    (limit : Int) (view : Option String) (describe : Bool) (hd : describe = true) :
    ((explore_group r ctx query times time_ranges labels header output return_fields order
        limit view describe).all (fun e => !e.is_explore_call)) = true ∧
    List.IsSuffix
      (describe_query (resolved_query ctx.sketch query view)
        (resolved_filter ctx.sketch times time_ranges labels order limit view))
      (explore_group r ctx query times time_ranges labels header output return_fields order
        limit view describe) := by
  subst hd
  cases hv : py_truthy view
  · constructor
    · simp [explore_group, hv, describe_query, Effect.is_explore_call]
    · exact ⟨[], by simp [explore_group, hv, resolved_query, resolved_filter, describe_query]⟩
  · constructor
    · simp [explore_group, hv, describe_query, Effect.is_explore_call]
    · exact ⟨[Effect.get_view (view.getD "")],
        by simp [explore_group, hv, resolved_query, resolved_filter, describe_query]⟩

/-- Witness for C4 with the describe flag set, in the ad-hoc path. -/
theorem C4_describe_early_exit_witness :
    (true = true) ∧
    ((explore_group demoRenderers demoCtx "*" [] [] ["star"] true none "" "asc" 40 none
        true).all (fun e => !e.is_explore_call)) = true ∧
    List.IsSuffix
      (describe_query (resolved_query demoCtx.sketch "*" none)
        (resolved_filter demoCtx.sketch [] [] ["star"] "asc" 40 none))
      (explore_group demoRenderers demoCtx "*" [] [] ["star"] true none "" "asc" 40 none
        true) :=
  ⟨rfl,
   (C4_describe_early_exit demoRenderers demoCtx "*" [] [] ["star"] true none "" "asc" 40
      none true rfl).1,
   (C4_describe_early_exit demoRenderers demoCtx "*" [] [] ["star"] true none "" "asc" 40
      none true rfl).2⟩

/-- C5: when a (truthy) saved view name is supplied and describe is not
set, the command fetches the view and searches with exactly the view's
stored query string and query filter; the `--label`, `--time` and
`--time-range` values do not appear anywhere in the performed effects. -/
theorem C5_view_replaces_cli (r : Renderers) (ctx : Ctx) (query : String)
    (times : List String) (time_ranges : List (String × String)) (labels : List String)
    (header : Bool) (output : Option String) (return_fields : String) (order : String)
    (limit : Int) (view_name : String) (hv : view_name ≠ "") :
    explore_group r ctx query times time_ranges labels header output return_fields order
        limit (some view_name) false =
      [Effect.get_view view_name,
       Effect.explore (ctx.sketch.get_view view_name).query_string
         (ctx.sketch.get_view view_name).query_filter return_fields,
       Effect.echo
         (format_output r
           (search ctx.sketch (ctx.sketch.get_view view_name).query_string
             (ctx.sketch.get_view view_name).query_filter return_fields)
           (effective_output_format ctx output) header)
         (effective_output_format ctx output != "csv")] := by
  have h : py_truthy (some view_name) = true := by
    simp [py_truthy, hv]
  simp [explore_group, h]

/-- Witness for C5: the saved view `my_view` is selected while `--time`,
`--time-range` and `--label` values are also supplied. -/
theorem C5_view_replaces_cli_witness :
    ("my_view" ≠ "") ∧
    explore_group demoRenderers demoCtx "*" ["2020-01-01T12:00"]
        [("2020-01-01", "2020-02-01")] ["star"] true none "" "asc" 40 (some "my_view")
        false =
      [Effect.get_view "my_view",
       Effect.explore (demoCtx.sketch.get_view "my_view").query_string
         (demoCtx.sketch.get_view "my_view").query_filter "",
       Effect.echo
         (format_output demoRenderers
           (search demoCtx.sketch (demoCtx.sketch.get_view "my_view").query_string
             (demoCtx.sketch.get_view "my_view").query_filter "")
           (effective_output_format demoCtx none) true)
         (effective_output_format demoCtx none != "csv")] :=
  ⟨by decide,
   C5_view_replaces_cli demoRenderers demoCtx "*" ["2020-01-01T12:00"]
     [("2020-01-01", "2020-02-01")] ["star"] true none "" "asc" 40 "my_view" (by decide)⟩

/-- C10: when both a (truthy) saved view name and the describe flag are
supplied, the external `get_view` call is still performed first, and the
command then prints the view's query and filter without any explore
(search) call. -/
theorem C10_view_describe_still_fetches (r : Renderers) (ctx : Ctx) (query : String)
    (times : List String) (time_ranges : List (String × String)) (labels : List String)
    (header : Bool) (output : Option String) (return_fields : String) (order : String)
    (limit : Int) (view_name : String) (hv : view_name ≠ "") :
    explore_group r ctx query times time_ranges labels header output return_fields order
        limit (some view_name) true =
      Effect.get_view view_name ::
        describe_query (ctx.sketch.get_view view_name).query_string
          (ctx.sketch.get_view view_name).query_filter := by
  have h : py_truthy (some view_name) = true := by
    simp [py_truthy, hv]
  simp [explore_group, h, describe_query]

/-- Witness for C10 at the concrete view name `my_view` with describe. -/
theorem C10_view_describe_still_fetches_witness :
    ("my_view" ≠ "") ∧
    explore_group demoRenderers demoCtx "*" [] [] [] true none "" "asc" 40
        (some "my_view") true =
      Effect.get_view "my_view" ::
        describe_query (demoCtx.sketch.get_view "my_view").query_string
          (demoCtx.sketch.get_view "my_view").query_filter :=
  ⟨by decide,
   C10_view_describe_still_fetches demoRenderers demoCtx "*" [] [] [] true none "" "asc"
     40 "my_view" (by decide)⟩
